import Mathlib

/-!
# Verification of the hockey-shot-map data pipeline

A shallow embedding of the data model and the pure computational core of the
hockey shot heat-map repository:

* the `ShotData` record model (`src/services/hockeyApi.ts`),
* the filter evaluator of the heat-map component (`filteredData` memo,
  heat-map component lines 70–113),
* the csvLoader service: `convertCsvRowToShotData`, `loadHockeyDataFromCsv`,
  `filterData`, `getDatasetSummary`,
* the d3 linear scale used for the coordinate-to-pixel transform,
* the d3-hexbin cell assignment and grouping used by the spatial binning
  engine, and
* the per-hexagon fill-color policy (heat-map component lines 236–248).

JavaScript numbers are modelled as exact rationals `ℚ`; where the code can
produce the IEEE non-finite values `NaN`/`±Infinity` (division by a zero
length, `Math.min`/`Math.max` over an empty spread) we use the `JsVal` type
that represents those values explicitly.  Strings that may be `undefined`
are `Option String`; JavaScript truthiness of a string (`undefined` and `""`
are falsy) and of a number (`0` falsy) is modelled by explicit functions.
-/

/-- `ShotData` (`src/services/hockeyApi.ts`): one shot event.  `x`, `y` are
ice coordinates in feet, `xG` the expected-goals value; `shotType`, `period`,
`gameId`, `teamId` are optional.  Coordinates are modelled as rationals,
matching the data-model invariant that coordinates are real numbers (the
`time` and `playerId` fields take no part in filtering, summary or binning
and are omitted). -/
structure ShotData where
  x : ℚ
  y : ℚ
  xG : ℚ
  shotType : Option String
  period : Option ℤ
  gameId : Option String
  teamId : Option String
deriving DecidableEq, Repr

/-- JavaScript truthiness of an optional string: `undefined` and the empty
string are falsy, every other string is truthy. -/
def jsTruthyStr : Option String → Bool
  | none => false
  | some s => !(s = "")

/-- JavaScript truthiness of an optional number: `undefined` and `0` are
falsy. -/
def jsTruthyInt : Option ℤ → Bool
  | none => false
  | some n => !(n = 0)

/-- `FilterState` (heat-map component lines 7–16): the component's filter
state bag. -/
structure FilterState where
  selectedTeams : List String
  selectedPeriods : List ℤ
  selectedShotOutcomes : List String
  minXG : ℚ
  maxXG : ℚ
  shotType : List String
  showOnlyGoals : Bool
  showOnlyHighDanger : Bool
deriving DecidableEq, Repr

/-- The simulated shot outcome (heat-map component line 87):
`shot.xG > 0.2 ? 'GOAL' : shot.xG > 0.1 ? 'SHOT' : 'MISSED_SHOT'`. -/
def shotOutcomeOf (s : ShotData) : String :=
  if s.xG > 0.2 then "GOAL" else if s.xG > 0.1 then "SHOT" else "MISSED_SHOT"

/-- The predicate of the `filteredData` memo (heat-map component lines
73–112).  Each guard mirrors one early-`return false`; `shot.teamId || ''`
is `Option.getD "" ` (both `undefined` and `""` compare as `""`),
`shot.period || 0` is `Option.getD 0` (both `undefined` and `0` compare as
`0`), and `array.length` truthiness is `!List.isEmpty`. -/
def shotPasses (f : FilterState) (s : ShotData) : Bool :=
  if !f.selectedTeams.isEmpty && !(f.selectedTeams.contains (s.teamId.getD "")) then false
  else if !f.selectedPeriods.isEmpty && !(f.selectedPeriods.contains (s.period.getD 0)) then false
  else if !f.selectedShotOutcomes.isEmpty && !(f.selectedShotOutcomes.contains (shotOutcomeOf s)) then false
  else if s.xG < f.minXG || s.xG > f.maxXG then false
  else if !f.shotType.isEmpty && !(f.shotType.contains (s.shotType.getD "")) then false
  else if f.showOnlyGoals && s.xG < 0.8 then false
  else if f.showOnlyHighDanger && s.xG < 0.15 then false
  else true

/-- `filteredData` (heat-map component lines 70–113): the empty-collection
shortcut (`if (!shotData.length) return []`) followed by `Array.filter` with
the predicate above. -/
def filteredData (f : FilterState) (data : List ShotData) : List ShotData :=
  if data.isEmpty then [] else data.filter (shotPasses f)

/-- `FilterConfiguration` as the specification describes it (spec §3): team,
period and shot-type allowlists, an inclusive expected-goal range, and the
two quick-filter flags.  It has no shot-outcome dimension. -/
structure FilterConfiguration where
  teamAllowlist : List String
  periodAllowlist : List ℤ
  shotTypeAllowlist : List String
  expectedGoalMin : ℚ
  expectedGoalMax : ℚ
  highQualityOnly : Bool
  highDangerOnly : Bool
deriving DecidableEq, Repr

/-- A `FilterConfiguration` interpreted as the component's filter state: the
fields correspond one to one and the shot-outcome list (absent from the
specification's configuration) is empty. -/
def FilterConfiguration.toFilterState (c : FilterConfiguration) : FilterState :=
  { selectedTeams := c.teamAllowlist
    selectedPeriods := c.periodAllowlist
    selectedShotOutcomes := []
    minXG := c.expectedGoalMin
    maxXG := c.expectedGoalMax
    shotType := c.shotTypeAllowlist
    showOnlyGoals := c.highQualityOnly
    showOnlyHighDanger := c.highDangerOnly }

/-- The pass predicate exactly as the specification words it: each allowlist
dimension passes iff the allowlist is empty or contains the record's value
(absent `teamId` compared as `""`, absent `period` as `0`, absent `shotType`
as `""`), the range is inclusive at both ends, and each enabled quick-filter
flag additionally requires `xG ≥ 0.8` respectively `xG ≥ 0.15`. -/
def specPasses (c : FilterConfiguration) (s : ShotData) : Bool :=
  (c.teamAllowlist.isEmpty || c.teamAllowlist.contains (s.teamId.getD ""))
  && (c.periodAllowlist.isEmpty || c.periodAllowlist.contains (s.period.getD 0))
  && (c.shotTypeAllowlist.isEmpty || c.shotTypeAllowlist.contains (s.shotType.getD ""))
  && (decide (c.expectedGoalMin ≤ s.xG) && decide (s.xG ≤ c.expectedGoalMax))
  && (!c.highQualityOnly || decide ((0.8 : ℚ) ≤ s.xG))
  && (!c.highDangerOnly || decide ((0.15 : ℚ) ≤ s.xG))

/-- The configuration with no restriction: every allowlist empty, both flags
false, range the full expected-goal domain `[0, 1]`. -/
def noRestriction : FilterConfiguration :=
  { teamAllowlist := []
    periodAllowlist := []
    shotTypeAllowlist := []
    expectedGoalMin := 0
    expectedGoalMax := 1
    highQualityOnly := false
    highDangerOnly := false }

/-- A sample shot in the high-danger band (spec §8 concrete scenario). -/
def sampleShotA : ShotData :=
  { x := 15, y := 5, xG := 0.15, shotType := some "wrist",
    period := some 1, gameId := none, teamId := some "EDM" }

/-- A second sample shot close to `sampleShotA`. -/
def sampleShotB : ShotData :=
  { x := 15.2, y := 5.1, xG := 0.25, shotType := some "snap",
    period := some 1, gameId := none, teamId := some "TOR" }

/-- A sample shot with an absent team and period. -/
def sampleShotC : ShotData :=
  { x := -30, y := -10, xG := 0.05, shotType := none,
    period := none, gameId := none, teamId := none }

/-- A sample filter configuration restricting period and range. -/
def sampleCfg : FilterConfiguration :=
  { teamAllowlist := []
    periodAllowlist := [1]
    shotTypeAllowlist := []
    expectedGoalMin := 0.1
    expectedGoalMax := 1
    highQualityOnly := false
    highDangerOnly := true }

/-- A JavaScript number that may be one of the IEEE non-finite values.
`num q` is a finite value, the other constructors are `NaN` and
`±Infinity`. -/
inductive JsVal where
  | nan
  | inf
  | ninf
  | num (q : ℚ)
deriving DecidableEq, Repr

/-- JavaScript division of a finite numerator by an array length: division
by length zero yields `NaN` for a zero numerator (`0 / 0`) and `±Infinity`
otherwise. -/
def jsDivByLength (a : ℚ) (n : ℕ) : JsVal :=
  if n = 0 then (if a = 0 then .nan else if a > 0 then .inf else .ninf)
  else .num (a / n)

/-- One step of `Math.min` over finite arguments. -/
def jsMinStep (v : JsVal) (q : ℚ) : JsVal :=
  match v with
  | .nan => .nan
  | .inf => .num q
  | .ninf => .ninf
  | .num a => .num (min a q)

/-- One step of `Math.max` over finite arguments. -/
def jsMaxStep (v : JsVal) (q : ℚ) : JsVal :=
  match v with
  | .nan => .nan
  | .inf => .inf
  | .ninf => .num q
  | .num a => .num (max a q)

/-- `Math.min(...xs)` over a spread of finite values: the fold of `min`
from the identity `+Infinity` (so the empty spread yields `+Infinity`). -/
def mathMinSpread (l : List ℚ) : JsVal := l.foldl jsMinStep .inf

/-- `Math.max(...xs)` over a spread of finite values: the fold of `max`
from the identity `-Infinity` (so the empty spread yields `-Infinity`). -/
def mathMaxSpread (l : List ℚ) : JsVal := l.foldl jsMaxStep .ninf

/-- `Array.from(new Set(xs))`: deduplication preserving first-occurrence
order. -/
def jsSetDedup {α : Type} [DecidableEq α] : List α → List α
  | [] => []
  | a :: rest => a :: jsSetDedup (rest.filter (fun b => b ≠ a))
termination_by l => l.length
decreasing_by
  simp only [List.length_cons]
  exact Nat.lt_succ_of_le (List.length_filter_le _ _)

/-- The `coordinateRanges` field of the dataset summary (csvLoader lines
141–146): each bound is `Math.min`/`Math.max` over the spread of all
coordinates, so it can be `±Infinity` when the collection is empty. -/
structure CoordinateRanges where
  xMin : JsVal
  xMax : JsVal
  yMin : JsVal
  yMax : JsVal
deriving DecidableEq, Repr

/-- The result shape of `getDatasetSummary` (csvLoader lines 112–125). -/
structure DatasetSummary where
  totalShots : ℕ
  totalXG : ℚ
  avgXG : JsVal
  teams : List String
  periods : List ℤ
  shotTypes : List String
  coordinateRanges : CoordinateRanges
deriving DecidableEq, Repr

/-- `getDatasetSummary` (csvLoader lines 112–148).  `teams`, `periods`
and `shotTypes` are `Array.from(new Set(data.map(...).filter(Boolean)))`;
`totalXG` is the `reduce` sum; `avgXG` is that sum divided by
`data.length` with JavaScript division semantics (no empty-collection
guard in the source); the coordinate bounds are `Math.min`/`Math.max`
over the coordinate spreads. -/
def getDatasetSummary (data : List ShotData) : DatasetSummary :=
  let total := (data.map (·.xG)).foldl (· + ·) 0
  { totalShots := data.length
    totalXG := total
    avgXG := jsDivByLength total data.length
    teams := jsSetDedup (((data.map (·.teamId)).filter jsTruthyStr).map (·.getD ""))
    periods := jsSetDedup (((data.map (·.period)).filter jsTruthyInt).map (·.getD 0))
    shotTypes := jsSetDedup (((data.map (·.shotType)).filter jsTruthyStr).map (·.getD ""))
    coordinateRanges :=
      { xMin := mathMinSpread (data.map (·.x))
        xMax := mathMaxSpread (data.map (·.x))
        yMin := mathMinSpread (data.map (·.y))
        yMax := mathMaxSpread (data.map (·.y)) } }

/-- A raw CSV row as consumed by `convertCsvRowToShotData`.  Each numeric
column is modelled by the outcome of parsing its text: `some q` when the
text parses to the number `q`, `none` when `parseFloat`/`parseInt` of the
text yields `NaN` (malformed or missing input). -/
structure CsvRow where
  x : Option ℚ
  y : Option ℚ
  xG : Option ℚ
  shot_type : Option String
  shot_outcome : Option String
  period : Option ℤ
  game_id : Option String
  event_team : Option String
deriving DecidableEq, Repr

/-- A record produced by the csv loader: `ShotData` whose coordinate fields
carry the raw `parseFloat` outcome (`none` models a `NaN` coordinate). -/
structure LoadedShot where
  x : Option ℚ
  y : Option ℚ
  xG : ℚ
  shotType : String
  shotOutcome : Option String
  period : ℤ
  gameId : Option String
  teamId : Option String
deriving DecidableEq, Repr

/-- `convertCsvRowToShotData` (csvLoader lines 46–78): the coordinates are
`parseFloat(row.x)` / `parseFloat(row.y)` passed through unchanged — there
is no fallback and no drop, so a malformed coordinate yields a `NaN`
coordinate in the record; `xG` is `parseFloat(row.xG) || 0` (`NaN` and `0`
both coerce to `0`); `shotType` is `row.shot_type || 'Unknown'`; `period`
is `parseInt(row.period) || 1` (`NaN` and `0` both coerce to `1`). -/
def convertCsvRowToShotData (row : CsvRow) : LoadedShot :=
  { x := row.x
    y := row.y
    xG := match row.xG with
          | none => 0
          | some q => if q = 0 then 0 else q
    shotType := match row.shot_type with
          | none => "Unknown"
          | some s => if s = "" then "Unknown" else s
    shotOutcome := row.shot_outcome
    period := match row.period with
          | none => 1
          | some p => if p = 0 then 1 else p
    gameId := row.game_id
    teamId := row.event_team }

/-- `loadHockeyDataFromCsv` (csvLoader lines 22–33): `csvData.map(d =>
this.convertCsvRowToShotData(d))` — a map over the parsed rows, with no
filtering. -/
def loadHockeyDataFromCsv (rows : List CsvRow) : List LoadedShot :=
  rows.map convertCsvRowToShotData

/-- The filter argument of the csvLoader's `filterData` (lines 87–93): all
fields optional (`none` models `undefined`).  `shotOutcomes` is accepted
but never read by the body. -/
structure CsvFilters where
  teams : Option (List String)
  shotOutcomes : Option (List String)
  periods : Option (List ℤ)
  minXG : Option ℚ
  maxXG : Option ℚ
deriving DecidableEq, Repr

/-- The team guard of `filterData` (csvLoader line 95):
`filters.teams && shot.teamId && !filters.teams.includes(shot.teamId)`.
An array — even an empty one — is truthy, so `teams: []` leaves the guard
armed, while a falsy (`undefined` or `""`) `teamId` disarms it. -/
def teamRejects (f : CsvFilters) (s : ShotData) : Bool :=
  f.teams.isSome && jsTruthyStr s.teamId && !((f.teams.getD []).contains (s.teamId.getD ""))

/-- The period guard of `filterData` (csvLoader line 98): same shape as the
team guard, with `0` the falsy period. -/
def periodRejects (f : CsvFilters) (s : ShotData) : Bool :=
  f.periods.isSome && jsTruthyInt s.period && !((f.periods.getD []).contains (s.period.getD 0))

/-- The lower-bound guard of `filterData` (csvLoader line 101):
`filters.minXG !== undefined && shot.xG < filters.minXG`. -/
def minXGRejects (f : CsvFilters) (s : ShotData) : Bool :=
  (f.minXG.map (fun m => decide (s.xG < m))).getD false

/-- The upper-bound guard of `filterData` (csvLoader line 104):
`filters.maxXG !== undefined && shot.xG > filters.maxXG`. -/
def maxXGRejects (f : CsvFilters) (s : ShotData) : Bool :=
  (f.maxXG.map (fun m => decide (s.xG > m))).getD false

/-- `filterData` (csvLoader lines 87–109): `data.filter` with the four
early-`return false` guards above. -/
def filterData (data : List ShotData) (f : CsvFilters) : List ShotData :=
  data.filter fun s =>
    if teamRejects f s then false
    else if periodRejects f s then false
    else if minXGRejects f s then false
    else if maxXGRejects f s then false
    else true

/-- `d3.scaleLinear().domain([d0, d1]).range([r0, r1])` applied to `t`
(d3-scale `continuous.js`): the deinterpolator is `(t - d0) / (d1 - d0)`
when the domain has nonzero width and the constant `1/2` otherwise (d3
source: `(b -= (a = +a)) ? x => (x - a) / b : constant(0.5)` — no division
happens in the zero-width branch), composed with
`interpolateNumber(r0, r1) = t => r0 * (1 - t) + r1 * t`.  Clamping is off
by default and the component never enables it. -/
def scaleLinear (d0 d1 r0 r1 t : ℚ) : ℚ :=
  let s := if d1 - d0 = 0 then (1 : ℚ) / 2 else (t - d0) / (d1 - d0)
  r0 * (1 - s) + r1 * s

/-- Chart width (heat-map component line 152). -/
def chartWidth : ℚ := 1000

/-- Chart height (heat-map component line 153). -/
def chartHeight : ℚ := 700

/-- Top margin (heat-map component line 154). -/
def marginTop : ℚ := 80

/-- Right margin (heat-map component line 154). -/
def marginRight : ℚ := 200

/-- Bottom margin (heat-map component line 154). -/
def marginBottom : ℚ := 80

/-- Left margin (heat-map component line 154). -/
def marginLeft : ℚ := 80

/-- `xScale` (heat-map component lines 163–165): domain
`[dataXMin, dataXMax]`, range `[margin.left, width - margin.right]`. -/
def xScale (dataXMin dataXMax t : ℚ) : ℚ :=
  scaleLinear dataXMin dataXMax marginLeft (chartWidth - marginRight) t

/-- `yScale` (heat-map component lines 167–169): reversed domain
`[dataYMax, dataYMin]`, range `[margin.top, height - margin.bottom]`. -/
def yScale (dataYMin dataYMax t : ℚ) : ℚ :=
  scaleLinear dataYMax dataYMin marginTop (chartHeight - marginBottom) t

/-- `Math.round`: rounds half toward `+∞`. -/
def jsRound (q : ℚ) : ℤ := ⌊q + 1 / 2⌋

/-- The hexagonal cell assigned to the pixel position `(px, py)` by the
point loop of d3-hexbin's `hexbin(points)`, with column width `dx` and row
height `dy` (the generator sets `dx = 2·r·sin(π/3)`, `dy = 1.5·r` for the
configured radius `r` — 12 by default, 8 in high-danger mode, so both are
positive).  A cell is identified by the pair `(pi, pj)`; the code keys bins
by the string `pi + "-" + pj`, and distinct number pairs give distinct key
strings.  `pj & 1` is `pj.emod 2` (JavaScript `&` computes the parity bit
of the two's-complement representation).  The `extent` configured on the
generator plays no part in `hexbin(points)` — it only affects `centers` and
`mesh` — so no clipping of points happens during binning. -/
def hexCell (dx dy px py : ℚ) : ℚ × ℚ :=
  let py1 := py / dy
  let pj : ℤ := jsRound py1
  let px1 := px / dx - ((pj % 2 : ℤ) : ℚ) / 2
  let pi : ℤ := jsRound px1
  let dy1 := py1 - (pj : ℚ)
  if |dy1| * 3 > 1 then
    let dx1 := px1 - (pi : ℚ)
    let pi2 : ℚ := (pi : ℚ) + (if px1 < (pi : ℚ) then (-1 : ℚ) else 1) / 2
    let pj2 : ℤ := pj + (if py1 < (pj : ℚ) then -1 else 1)
    let dx2 := px1 - pi2
    let dy2 := py1 - (pj2 : ℚ)
    if dx1 * dx1 + dy1 * dy1 > dx2 * dx2 + dy2 * dy2 then
      (pi2 + (if pj % 2 = 1 then (1 : ℚ) else -1) / 2, (pj2 : ℚ))
    else ((pi : ℚ), (pj : ℚ))
  else ((pi : ℚ), (pj : ℚ))

/-- Append point `p` to the bin keyed `c`, creating the bin at the end of
the bin list on first encounter (d3-hexbin: `binsById[id].push(point)`,
else `bins.push(binsById[id] = [point])`). -/
def binsInsert (c : ℚ × ℚ) (p : ShotData) :
    List ((ℚ × ℚ) × List ShotData) → List ((ℚ × ℚ) × List ShotData)
  | [] => [(c, [p])]
  | b :: rest => if b.1 = c then (b.1, b.2 ++ [p]) :: rest else b :: binsInsert c p rest

/-- `hexbin(filteredData)` (heat-map component lines 215–221): one pass
over the points, assigning each point's scaled pixel position to a cell and
grouping by cell; bins are emitted in first-encounter order and hold their
members in input order.  `xsf` and `ysf` are the configured accessors
(`d => xScale(d.x)` and `d => yScale(d.y)`). -/
def hexbinRun (dx dy : ℚ) (xsf ysf : ℚ → ℚ) (pts : List ShotData) :
    List ((ℚ × ℚ) × List ShotData) :=
  pts.foldl (fun bins p => binsInsert (hexCell dx dy (xsf p.x) (ysf p.y)) p bins) []

/-- A fill color: `reds t` is `d3.interpolateReds(t)` and `ylOrRd t` is
`d3.scaleSequential().domain([0, maxBinSize]).interpolator(
d3.interpolateYlOrRd)` output at normalized position `t`; the two ramps
are distinct and each is injective in its position, so colors are compared
by ramp and position. -/
inductive FillColor where
  | reds (t : ℚ)
  | ylOrRd (t : ℚ)
deriving DecidableEq, Repr

/-- `d3.mean(d, shot => shot.xG) || 0`: the mean of the bin's expected-goal
values, with the `undefined` mean of an empty bin (and a zero mean) coerced
to `0`. -/
def jsMeanOr0 (l : List ℚ) : ℚ :=
  if l.isEmpty then 0 else l.foldl (· + ·) 0 / l.length

/-- The `.attr('fill', ...)` callback (heat-map component lines 236–248):
`avgXG = d3.mean(d, shot => shot.xG) || 0` and
`intensity = d.length / maxBinSize`; in high-danger mode the color is
`interpolateReds(avgXG)` alone, else bins with `avgXG > 0.1` color by
`interpolateReds(Math.min(1, intensity + avgXG))`, else by the sequential
density scale at `d.length` (normalized position `d.length / maxBinSize`). -/
def fillColor (highDanger : Bool) (maxBinSize : ℚ) (bin : List ShotData) : FillColor :=
  let avgXG := jsMeanOr0 (bin.map (·.xG))
  let intensity := (bin.length : ℚ) / maxBinSize
  if highDanger then .reds avgXG
  else if avgXG > 0.1 then .reds (min 1 (intensity + avgXG))
  else .ylOrRd ((bin.length : ℚ) / maxBinSize)

/-- The three-branch color policy exactly as the specification words it, in
terms of a bin's count, its average expected goal and the maximum bin
count: first match wins — high-danger mode uses the danger ramp on the
average alone; else average `> 0.1` uses the quality ramp on
`min(1, count / maxBinCount + average)`; else the density-only ramp at the
bin count. -/
def specColorPolicy (highDanger : Bool) (count : ℕ) (avg maxBinCount : ℚ) : FillColor :=
  if highDanger then .reds avg
  else if avg > 0.1 then .reds (min 1 ((count : ℚ) / maxBinCount + avg))
  else .ylOrRd ((count : ℚ) / maxBinCount)

/-- The `averageExpectedGoal` of a bin as the specification defines it: the
mean of the members' expected-goal values. -/
def binAverage (bin : List ShotData) : ℚ :=
  (bin.map (·.xG)).sum / (bin.length : ℚ)

/-- A sample shot with expected-goal value exactly `0.2`. -/
def sampleShotD : ShotData :=
  { x := 10, y := 12, xG := 0.2, shotType := some "wrist",
    period := some 2, gameId := none, teamId := some "EDM" }

/-- A sample malformed CSV row: the `x` column does not parse as a number. -/
def badRow : CsvRow :=
  { x := none, y := some 5, xG := some 0.15, shot_type := some "wrist",
    shot_outcome := some "SHOT", period := some 1,
    game_id := some "2021020001", event_team := some "EDM" }

/-- Sample csvLoader filters with empty (hence truthy) `teams` and
`periods` arrays and no range bounds. -/
def sampleCsvFilters : CsvFilters :=
  { teams := some [], shotOutcomes := none, periods := some [],
    minXG := none, maxXG := none }

lemma listIsEmpty_eq_decide {α : Type} (l : List α) [DecidableEq α] :
    l.isEmpty = decide (l = []) := by
  cases l <;> simp

lemma shotPasses_eq_specPasses (c : FilterConfiguration) (s : ShotData) :
    shotPasses c.toFilterState s = specPasses c s := by
  unfold shotPasses specPasses FilterConfiguration.toFilterState
  simp only [List.isEmpty_nil, Bool.not_true, Bool.false_and, if_false, Bool.if_false_left,
    Bool.if_true_left, Bool.not_and, Bool.not_not, Bool.not_or]
  rcases c with ⟨teams, periods, types, lo, hi, hq, hd⟩
  rcases s with ⟨x, y, xg, st, per, gid, tid⟩
  simp only []
  by_cases h1 : xg < lo
  · simp [h1, not_le.mpr h1, Bool.and_comm, Bool.and_assoc, Bool.and_left_comm]
  · by_cases h2 : xg > hi
    · simp [h1, h2, not_le.mpr h2]
    · simp only [h1, h2, Bool.or_false, Bool.not_false, Bool.true_and,
        not_lt.mp h1, not_lt.mp h2, Bool.and_true, decide_eq_true_eq, if_true, if_false,
        eq_self_iff_true, decide_True, decide_False]
      by_cases hqb : hq <;> by_cases hdb : hd <;>
        by_cases h3 : xg < 0.8 <;> by_cases h4 : xg < 0.15 <;>
        simp [hqb, hdb, h3, h4, not_le.mpr, not_lt.mp, listIsEmpty_eq_decide,
          Bool.and_comm, Bool.and_assoc, Bool.and_left_comm]

/-- C1: for every shot collection and every `FilterConfiguration`, the filter
evaluator returns exactly the subsequence of records (in order) satisfying
every active predicate — empty allowlists impose no restriction, absent
`teamId` compares as `""`, absent `period` as `0`, the expected-goal range is
inclusive at both ends, and the enabled quick-filter flags additionally
require `xG ≥ 0.8` respectively `xG ≥ 0.15`; in particular with every
allowlist empty, both flags false and the range the full domain `[0, 1]`,
the output is the input unchanged. -/
theorem filteredData_is_spec_filter (data : List ShotData) (cfg : FilterConfiguration)
    (hxg : ∀ s ∈ data, 0 ≤ s.xG ∧ s.xG ≤ 1) :
    filteredData cfg.toFilterState data = data.filter (specPasses cfg)
    ∧ filteredData noRestriction.toFilterState data = data := by
  have hfun : ∀ c : FilterConfiguration,
      filteredData c.toFilterState data = data.filter (specPasses c) := by
    intro c
    unfold filteredData
    by_cases h : data.isEmpty
    · rw [if_pos h, List.isEmpty_iff.mp h, List.filter_nil]
    · rw [if_neg h]
      exact List.filter_congr (fun s _ => shotPasses_eq_specPasses c s)
  refine ⟨hfun cfg, ?_⟩
  rw [hfun noRestriction]
  apply List.filter_eq_self.mpr
  intro s hs
  have hx := hxg s hs
  simp [specPasses, noRestriction, hx.1, hx.2]

/-- Witness for C1 at a concrete two-record collection and a concrete
configuration (period allowlist `[1]`, range `[0.1, 1]`, high-danger flag). -/
theorem filteredData_is_spec_filter_witness :
    (∀ s ∈ [sampleShotA, sampleShotB, sampleShotC], 0 ≤ s.xG ∧ s.xG ≤ 1)
    ∧ (filteredData sampleCfg.toFilterState [sampleShotA, sampleShotB, sampleShotC]
        = [sampleShotA, sampleShotB, sampleShotC].filter (specPasses sampleCfg)
      ∧ filteredData noRestriction.toFilterState [sampleShotA, sampleShotB, sampleShotC]
        = [sampleShotA, sampleShotB, sampleShotC]) :=
  ⟨by intro s hs; fin_cases hs <;> norm_num [sampleShotA, sampleShotB, sampleShotC],
   filteredData_is_spec_filter [sampleShotA, sampleShotB, sampleShotC] sampleCfg
    (by intro s hs; fin_cases hs <;> norm_num [sampleShotA, sampleShotB, sampleShotC])⟩

/-- C7: the filter evaluator is idempotent — applying the same filter state
to its own output returns that output unchanged. -/
theorem filteredData_idempotent (f : FilterState) (data : List ShotData) :
    filteredData f (filteredData f data) = filteredData f data := by
  unfold filteredData
  by_cases h : data.isEmpty
  · simp [h]
  · rw [if_neg h]
    by_cases h2 : (data.filter (shotPasses f)).isEmpty
    · rw [if_pos h2, List.isEmpty_iff.mp h2]
    · rw [if_neg h2, List.filter_filter]
      simp only [Bool.and_self]

/-- C2 (code divergence): on the empty collection, the dataset summary's
average expected goal is the JavaScript division `0 / 0`, i.e. `NaN` — not
the defined value `0` required as the empty-collection guard. -/
theorem getDatasetSummary_empty_avgXG_nan :
    (getDatasetSummary []).avgXG = JsVal.nan ∧ JsVal.nan ≠ JsVal.num 0 := by
  refine ⟨rfl, ?_⟩
  intro h
  exact JsVal.noConfusion h

/-- C9 counterexample: on the empty collection the summary's `xMin`
coordinate bound is `+Infinity` — an Infinity value, not an explicit empty
sentinel. -/
theorem getDatasetSummary_empty_xMin_infinite :
    (getDatasetSummary []).coordinateRanges.xMin = JsVal.inf := rfl

/-- C9 (amended): on the empty collection, the coordinate bounds are the
identities of `Math.min`/`Math.max` over an empty spread — `xMin = yMin =
+Infinity` and `xMax = yMax = -Infinity` — with no explicit empty
sentinel. -/
theorem getDatasetSummary_empty_bounds :
    (getDatasetSummary []).coordinateRanges =
      { xMin := JsVal.inf, xMax := JsVal.ninf,
        yMin := JsVal.inf, yMax := JsVal.ninf } := rfl

/-- C6 counterexample: a raw row whose `x` column does not parse as a
number is not dropped — the load still yields one record for it, carrying
the unparseable coordinate as `NaN` (modelled `none`). -/
theorem loadHockeyData_keeps_malformed_row :
    (loadHockeyDataFromCsv [badRow]).length = 1
    ∧ (loadHockeyDataFromCsv [badRow]).map (·.x) = [none] :=
  ⟨rfl, rfl⟩

/-- C6 (amended): the load maps raw rows one to one — a row with an
unparseable `x` or `y` coordinate still yields a record, whose coordinates
are the raw `parseFloat` outcomes (`NaN` when unparseable): malformed
coordinate input is neither repaired nor dropped. -/
theorem loadHockeyData_maps_rows (rows : List CsvRow) :
    (loadHockeyDataFromCsv rows).length = rows.length
    ∧ (loadHockeyDataFromCsv rows).map (fun s => (s.x, s.y))
        = rows.map (fun r => (r.x, r.y)) := by
  refine ⟨by simp [loadHockeyDataFromCsv], ?_⟩
  simp [loadHockeyDataFromCsv, convertCsvRowToShotData]

/-- C10: in the csvLoader's `filterData`, a record with a falsy (absent)
`teamId` / `period` passes the corresponding guard no matter the supplied
allowlist, while supplying an empty — hence truthy — `teams` / `periods`
array rejects every record whose field is present (the opposite of the
"empty allowlist means no restriction" convention); a record rejected by
the team guard never appears in `filterData`'s output. -/
theorem filterData_empty_array_rejects :
    (∀ f s, jsTruthyStr s.teamId = false → teamRejects f s = false)
    ∧ (∀ f s, f.teams = some [] → jsTruthyStr s.teamId = true → teamRejects f s = true)
    ∧ (∀ f s, jsTruthyInt s.period = false → periodRejects f s = false)
    ∧ (∀ f s, f.periods = some [] → jsTruthyInt s.period = true → periodRejects f s = true)
    ∧ (∀ data f s, teamRejects f s = true → s ∉ filterData data f) := by
  refine ⟨?_, ?_, ?_, ?_, ?_⟩
  · intro f s h; simp [teamRejects, h]
  · intro f s hf h; simp [teamRejects, hf, h]
  · intro f s h; simp [periodRejects, h]
  · intro f s hf h; simp [periodRejects, hf, h]
  · intro data f s hrej hmem
    have := (List.mem_filter.mp hmem).2
    rw [if_pos hrej] at this
    exact Bool.false_ne_true this

/-- Witness for C10 at concrete records (`sampleShotC` has absent team and
period, `sampleShotA` present ones) and the concrete filters with empty
`teams` and `periods` arrays. -/
theorem filterData_empty_array_rejects_witness :
    teamRejects sampleCsvFilters sampleShotC = false
    ∧ teamRejects sampleCsvFilters sampleShotA = true
    ∧ periodRejects sampleCsvFilters sampleShotC = false
    ∧ periodRejects sampleCsvFilters sampleShotA = true
    ∧ sampleShotA ∉ filterData [sampleShotA, sampleShotC] sampleCsvFilters :=
  ⟨filterData_empty_array_rejects.1 sampleCsvFilters sampleShotC (by decide),
   filterData_empty_array_rejects.2.1 sampleCsvFilters sampleShotA (by decide) (by decide),
   filterData_empty_array_rejects.2.2.1 sampleCsvFilters sampleShotC (by decide),
   filterData_empty_array_rejects.2.2.2.1 sampleCsvFilters sampleShotA (by decide) (by decide),
   filterData_empty_array_rejects.2.2.2.2 [sampleShotA, sampleShotC] sampleCsvFilters sampleShotA
     (filterData_empty_array_rejects.2.1 sampleCsvFilters sampleShotA (by decide) (by decide))⟩

/-- C8: with a zero-width coordinate domain, the linear coordinate-to-pixel
transform takes the constant-`1/2` deinterpolator branch — performing no
division by the zero width — and maps every input to the fixed midpoint of
the pixel range, a position within that range; in particular `xScale` and
`yScale` with degenerate data bounds send every coordinate to the fixed
pixel midpoints of their ranges. -/
theorem zero_width_domain_fixed_pixel (a t t' r0 r1 : ℚ) :
    scaleLinear a a r0 r1 t = (r0 + r1) / 2
    ∧ scaleLinear a a r0 r1 t = scaleLinear a a r0 r1 t'
    ∧ xScale a a t = 440
    ∧ yScale a a t = 350
    ∧ min r0 r1 ≤ scaleLinear a a r0 r1 t ∧ scaleLinear a a r0 r1 t ≤ max r0 r1 := by
  have key : ∀ u0 u1 s : ℚ, scaleLinear a a u0 u1 s = (u0 + u1) / 2 := by
    intro u0 u1 s
    unfold scaleLinear
    rw [if_pos (by ring)]
    ring
  refine ⟨key r0 r1 t, by rw [key, key], ?_, ?_, ?_, ?_⟩
  · unfold xScale
    rw [key]
    norm_num [marginLeft, chartWidth, marginRight]
  · unfold yScale
    rw [key]
    norm_num [marginTop, chartHeight, marginBottom]
  · rw [key]
    rcases le_total r0 r1 with h | h <;> rw [min_def] <;> split <;> linarith
  · rw [key]
    rcases le_total r0 r1 with h | h <;> rw [max_def] <;> split <;> linarith

lemma jsMeanOr0_eq_binAverage (b : List ShotData) (hb : b ≠ []) :
    jsMeanOr0 (b.map (·.xG)) = binAverage b := by
  unfold jsMeanOr0 binAverage
  rw [if_neg (by simp [hb])]
  rw [← List.sum_eq_foldl, List.length_map]

/-- C5: in high-danger mode the fill color is a function of the bin's
average expected goal alone — two bins with equal average but arbitrary
counts, under arbitrary maximum bin counts, receive equal colors. -/
theorem highDanger_color_ignores_count (b1 b2 : List ShotData) (m1 m2 : ℚ)
    (h1 : b1 ≠ []) (h2 : b2 ≠ []) (havg : binAverage b1 = binAverage b2) :
    fillColor true m1 b1 = fillColor true m2 b2 := by
  unfold fillColor
  simp only [if_true]
  rw [jsMeanOr0_eq_binAverage b1 h1, jsMeanOr0_eq_binAverage b2 h2, havg]

/-- Witness for C5: a two-shot bin with average `(0.15 + 0.25) / 2 = 0.2`
and a one-shot bin with average `0.2`, under different maximum bin counts,
get the same color. -/
theorem highDanger_color_ignores_count_witness :
    fillColor true 2 [sampleShotA, sampleShotB] = fillColor true 5 [sampleShotD] :=
  highDanger_color_ignores_count [sampleShotA, sampleShotB] [sampleShotD] 2 5
    (by simp) (by simp)
    (by norm_num [binAverage, sampleShotA, sampleShotB, sampleShotD])

/-- C4: for every nonempty bin and maximum bin count `≥ 1`, the fill-color
callback implements exactly the specification's three-branch first-match
policy: high-danger mode maps the danger ramp over the average expected
goal alone; else average `> 0.1` maps the quality ramp over
`min(1, count / maxBinCount + average)`; else the density-only ramp at the
bin count. -/
theorem fillColor_matches_policy (hd : Bool) (bin : List ShotData) (m : ℚ)
    (hb : bin ≠ []) (_hm : 1 ≤ m) :
    fillColor hd m bin = specColorPolicy hd bin.length (binAverage bin) m := by
  unfold fillColor specColorPolicy
  rw [jsMeanOr0_eq_binAverage bin hb]

/-- Witness for C4: a one-shot bin with average `0.15 > 0.1` under maximum
bin count `1` is colored by the blended quality branch of the policy. -/
theorem fillColor_matches_policy_witness :
    fillColor false 1 [sampleShotA]
      = specColorPolicy false [sampleShotA].length (binAverage [sampleShotA]) 1 :=
  fillColor_matches_policy false [sampleShotA] 1 (by simp) (by norm_num)

lemma binsInsert_snd_nonempty (c : ℚ × ℚ) (p : ShotData)
    (bins : List ((ℚ × ℚ) × List ShotData)) (h : ∀ b ∈ bins, b.2 ≠ []) :
    ∀ b ∈ binsInsert c p bins, b.2 ≠ [] := by
  induction bins with
  | nil =>
    intro b hb
    simp only [binsInsert] at hb
    rcases List.mem_singleton.mp hb with rfl
    simp
  | cons hd tl ih =>
    intro b hb
    simp only [binsInsert] at hb
    split at hb
    · rcases List.mem_cons.mp hb with rfl | hmem
      · simp
      · exact h _ (List.mem_cons_of_mem _ hmem)
    · rcases List.mem_cons.mp hb with rfl | hmem
      · exact h _ (List.mem_cons_self _ _)
      · exact ih (fun b' hb' => h b' (List.mem_cons_of_mem _ hb')) b hmem

lemma binsInsert_flatten_perm (c : ℚ × ℚ) (p : ShotData)
    (bins : List ((ℚ × ℚ) × List ShotData)) :
    List.Perm (((binsInsert c p bins).map (·.2)).flatten)
      (((bins.map (·.2)).flatten) ++ [p]) := by
  induction bins with
  | nil => simp [binsInsert]
  | cons hd tl ih =>
    simp only [binsInsert]
    split
    · simp only [List.map_cons, List.flatten_cons, List.append_assoc]
      exact List.Perm.append_left hd.2 List.perm_append_comm
    · simp only [List.map_cons, List.flatten_cons, List.append_assoc]
      exact List.Perm.append_left hd.2 ih

lemma hexbin_foldl_invariant (dx dy : ℚ) (xsf ysf : ℚ → ℚ) (pts : List ShotData) :
    ∀ bins : List ((ℚ × ℚ) × List ShotData),
      List.Perm
        (((pts.foldl
            (fun bins p => binsInsert (hexCell dx dy (xsf p.x) (ysf p.y)) p bins)
            bins).map (·.2)).flatten)
        (((bins.map (·.2)).flatten) ++ pts)
      ∧ ((∀ b ∈ bins, b.2 ≠ []) →
          ∀ b ∈ pts.foldl
            (fun bins p => binsInsert (hexCell dx dy (xsf p.x) (ysf p.y)) p bins)
            bins, b.2 ≠ []) := by
  induction pts with
  | nil => intro bins; simp
  | cons p rest ih =>
    intro bins
    constructor
    · have s1 := (ih (binsInsert (hexCell dx dy (xsf p.x) (ysf p.y)) p bins)).1
      have s2 := List.Perm.append_right rest
        (binsInsert_flatten_perm (hexCell dx dy (xsf p.x) (ysf p.y)) p bins)
      have s3 := s1.trans s2
      simp only [List.foldl_cons]
      simpa using s3
    · intro hne
      simp only [List.foldl_cons]
      exact (ih _).2 (binsInsert_snd_nonempty _ p bins hne)

/-- C3: every bin produced by the spatial binning engine has at least one
member, and the multiset union of all bins' members is exactly the filtered
input — each record appears exactly once, with no duplication and no
omission. -/
theorem hexbin_bins_partition_input (dx dy : ℚ) (xsf ysf : ℚ → ℚ)
    (pts : List ShotData) :
    (∀ b ∈ hexbinRun dx dy xsf ysf pts, 1 ≤ b.2.length)
    ∧ ((((hexbinRun dx dy xsf ysf pts).map (·.2)).flatten : Multiset ShotData)
        = (pts : Multiset ShotData)) := by
  have h := hexbin_foldl_invariant dx dy xsf ysf pts []
  constructor
  · intro b hb
    have hne := h.2 (by simp) b hb
    exact List.length_pos.mpr hne
  · exact Multiset.coe_eq_coe.mpr (by simpa using h.1)
